import Mathlib

/-!
Shallow embedding of the edge-agent script execution engine
(src/edge-agent/src/scripting/{engine,storage,limits,conflict}.rs and
src/edge-agent/src/resilience/circuit_breaker.rs) together with proofs
about its specified behaviour.

Modelling conventions:
* Rust HashMap state is modelled by association lists with a
  replace-on-insert operation; lookups use List.lookup.
* std::time::Instant values are modelled by Nat timestamps (seconds for
  the rate limiter and circuit breaker, matching the 60 s and
  recovery_timeout comparisons in the source).
* Code of the repository that is not under src/ (the scripting data
  model in scripting/mod.rs, the script context in context.rs, the
  trigger evaluation in triggers.rs and the hardware actors) is either
  modelled from the spec where a definition is required, or abstracted
  into oracle parameters where the engine merely consumes its results.
-/

namespace Aqua

/-- Modelled from the spec: the action kinds of the script data model
(scripting/mod.rs is not part of src/; the variants are listed in
spec section 3 and consumed throughout engine.rs). -/
inductive ActionType where
  | SetGpio
  | WriteModbus
  | WriteCoil
  | Alert
  | SetVariable
  | Log
  | Delay
  | PublishMqtt
  | CallScript
  | Noop
deriving DecidableEq, Repr

/-- Modelled from the spec: a JSON-typed value as carried by conditions
and actions (spec section 3; serde_json::Value in the source). Only the
shapes consumed by engine.rs are modelled. -/
inductive JsonValue where
  | null
  | bool (b : Bool)
  | num (n : Int)
  | str (s : String)
deriving DecidableEq, Repr

/-- Modelled from the spec: the comparison operators of conditions
(spec section 3; scripting/mod.rs is not part of src/). -/
inductive ComparisonOperator where
  | Eq | Ne | Gt | Gte | Lt | Lte | Between | Contains
deriving DecidableEq, Repr

/-- Modelled from the spec: a condition record {source, operator, value}
(spec section 3). Evaluation against the live context happens in
context-dependent code outside src/, so the theorems take the evaluator
as an oracle parameter. -/
structure Condition where
  source : String
  operator : ComparisonOperator
  value : JsonValue
deriving DecidableEq, Repr

/-- Modelled from the spec: an action record. Field names follow the
accesses made by engine.rs (action.target, action.value, action.device,
action.address, action.message, action.delay_ms, action.script_id,
action.condition). -/
structure Action where
  action_type : ActionType
  target : String
  value : Option JsonValue
  device : Option String
  address : Option Nat
  message : Option String
  delay_ms : Option Nat
  script_id : Option String
  condition : Option Condition
deriving DecidableEq, Repr

/-- Base action with the given kind and target and no optional fields. -/
def baseAction (t : ActionType) (target : String) : Action :=
  ⟨t, target, none, none, none, none, none, none, none⟩

/-- Modelled from the spec: the per-action result record carried inside
an ExecutionResult (spec sections 4.8 and 7; its constructors
ActionResult::success and ActionResult::failure are used throughout
engine.rs). -/
structure ActionResult where
  action_type : ActionType
  success : Bool
  message : String
deriving DecidableEq, Repr

/-- The ActionResult::success constructor of the source. -/
def ActionResult.mkSuccess (t : ActionType) (msg : String) : ActionResult :=
  ⟨t, true, msg⟩

/-- The ActionResult::failure constructor of the source. -/
def ActionResult.mkFailure (t : ActionType) (msg : String) : ActionResult :=
  ⟨t, false, msg⟩

/-! ## Conflict detector (src/edge-agent/src/scripting/conflict.rs) -/

/-- Value being written (conflict.rs, enum WriteValue). -/
inductive WriteValue where
  | bool (b : Bool)
  | u16 (v : Nat)
deriving DecidableEq, Repr

/-- Pending write operation for conflict detection (conflict.rs). -/
structure PendingWrite where
  script_id : String
  value : WriteValue
deriving DecidableEq, Repr

/-- Conflict detection result (conflict.rs, enum ConflictResult). -/
inductive ConflictResult where
  | NoConflict
  | Conflict (message : String)
  | Duplicate
deriving DecidableEq, Repr

/-- The constructor kind of a ConflictResult, forgetting the message. -/
inductive ConflictKind where
  | noConflict | conflict | duplicate
deriving DecidableEq, Repr

/-- Kind projection of a ConflictResult. -/
def ConflictResult.kind : ConflictResult → ConflictKind
  | ConflictResult.NoConflict => ConflictKind.noConflict
  | ConflictResult.Conflict _ => ConflictKind.conflict
  | ConflictResult.Duplicate => ConflictKind.duplicate

/-- Replace-on-insert for an association list, modelling HashMap::insert. -/
def alInsert {κ β : Type} [BEq κ] (k : κ) (v : β) (l : List (κ × β)) :
    List (κ × β) :=
  (k, v) :: l.filter (fun p => !(k == p.1))

/-- Conflict detector state (conflict.rs, struct ConflictDetector).
GPIO writes are keyed by pin, Modbus register and coil writes by
(device, address). -/
structure ConflictDetector where
  gpio_writes : List (Nat × PendingWrite)
  modbus_writes : List ((String × Nat) × PendingWrite)
  coil_writes : List ((String × Nat) × PendingWrite)
deriving Repr

/-- ConflictDetector::new. -/
def ConflictDetector.new : ConflictDetector := ⟨[], [], []⟩

/-- ConflictDetector::reset. -/
def ConflictDetector.reset (_ : ConflictDetector) : ConflictDetector :=
  ⟨[], [], []⟩

/-- ConflictDetector::check_gpio_write (conflict.rs lines 67 to 115).
Returns the ConflictResult together with the updated detector. -/
def ConflictDetector.check_gpio_write (d : ConflictDetector)
    (script_id : String) (pin : Nat) (value : Bool) :
    ConflictResult × ConflictDetector :=
  let new_write : PendingWrite := ⟨script_id, WriteValue.bool value⟩
  match List.lookup pin d.gpio_writes with
  | some existing =>
    if existing.script_id == script_id then
      (ConflictResult.NoConflict,
        { d with gpio_writes := alInsert pin new_write d.gpio_writes })
    else if existing.value == WriteValue.bool value then
      (ConflictResult.Duplicate, d)
    else
      let conflict_value :=
        match existing.value with
        | WriteValue.bool v => if v then "HIGH" else "LOW"
        | _ => "unknown"
      let new_value := if value then "HIGH" else "LOW"
      let message :=
        "GPIO CONFLICT: Pin " ++ toString pin ++ " - Script " ++ script_id
          ++ " wants " ++ new_value ++ ", but " ++ existing.script_id
          ++ " already set " ++ conflict_value
      (ConflictResult.Conflict message,
        { d with gpio_writes := alInsert pin new_write d.gpio_writes })
  | none =>
    (ConflictResult.NoConflict,
      { d with gpio_writes := alInsert pin new_write d.gpio_writes })

/-- ConflictDetector::check_modbus_write (conflict.rs lines 118 to 159). -/
def ConflictDetector.check_modbus_write (d : ConflictDetector)
    (script_id : String) (device : String) (address : Nat) (value : Nat) :
    ConflictResult × ConflictDetector :=
  let key : String × Nat := (device, address)
  let new_write : PendingWrite := ⟨script_id, WriteValue.u16 value⟩
  match List.lookup key d.modbus_writes with
  | some existing =>
    if existing.script_id == script_id then
      (ConflictResult.NoConflict,
        { d with modbus_writes := alInsert key new_write d.modbus_writes })
    else if existing.value == WriteValue.u16 value then
      (ConflictResult.Duplicate, d)
    else
      let existing_val :=
        match existing.value with
        | WriteValue.u16 v => v
        | _ => 0
      let message :=
        "MODBUS CONFLICT: " ++ device ++ ":" ++ toString address
          ++ " - Script " ++ script_id ++ " wants " ++ toString value
          ++ ", but " ++ existing.script_id ++ " already set "
          ++ toString existing_val
      (ConflictResult.Conflict message,
        { d with modbus_writes := alInsert key new_write d.modbus_writes })
  | none =>
    (ConflictResult.NoConflict,
      { d with modbus_writes := alInsert key new_write d.modbus_writes })

/-- ConflictDetector::check_coil_write (conflict.rs lines 162 to 203). -/
def ConflictDetector.check_coil_write (d : ConflictDetector)
    (script_id : String) (device : String) (address : Nat) (value : Bool) :
    ConflictResult × ConflictDetector :=
  let key : String × Nat := (device, address)
  let new_write : PendingWrite := ⟨script_id, WriteValue.bool value⟩
  match List.lookup key d.coil_writes with
  | some existing =>
    if existing.script_id == script_id then
      (ConflictResult.NoConflict,
        { d with coil_writes := alInsert key new_write d.coil_writes })
    else if existing.value == WriteValue.bool value then
      (ConflictResult.Duplicate, d)
    else
      let existing_val :=
        match existing.value with
        | WriteValue.bool v => v
        | _ => false
      let message :=
        "COIL CONFLICT: " ++ device ++ ":" ++ toString address
          ++ " - Script " ++ script_id ++ " wants " ++ toString value
          ++ ", but " ++ existing.script_id ++ " already set "
          ++ toString existing_val
      (ConflictResult.Conflict message,
        { d with coil_writes := alInsert key new_write d.coil_writes })
  | none =>
    (ConflictResult.NoConflict,
      { d with coil_writes := alInsert key new_write d.coil_writes })

/-- Specification-side arbitration step, written from the words of
spec section 4.2: no pending write registers and yields NoConflict; a
pending write by the same script is overwritten with NoConflict; the
same value from a different script leaves the table untouched and
yields Duplicate; otherwise Conflict with last-write-wins overwrite. -/
def checkWriteSpec {κ : Type} [BEq κ]
    (table : List (κ × PendingWrite)) (script_id : String) (key : κ)
    (value : WriteValue) : ConflictKind × List (κ × PendingWrite) :=
  match List.lookup key table with
  | none => (ConflictKind.noConflict, alInsert key ⟨script_id, value⟩ table)
  | some pending =>
    if pending.script_id == script_id then
      (ConflictKind.noConflict, alInsert key ⟨script_id, value⟩ table)
    else if pending.value == value then
      (ConflictKind.duplicate, table)
    else
      (ConflictKind.conflict, alInsert key ⟨script_id, value⟩ table)

/-! ## Circuit breaker (src/edge-agent/src/resilience/circuit_breaker.rs) -/

/-- Circuit breaker states (the STATE_CLOSED, STATE_OPEN and
STATE_HALF_OPEN constants of circuit_breaker.rs). -/
inductive CBState where
  | Closed | Open | HalfOpen
deriving DecidableEq, Repr

/-- Circuit breaker state record (circuit_breaker.rs, struct
CircuitBreaker). Instants are modelled as Nat timestamps. -/
structure CircuitBreaker where
  name : String
  state : CBState
  failure_count : Nat
  success_count : Nat
  failure_threshold : Nat
  success_threshold : Nat
  recovery_timeout : Nat
  last_failure : Option Nat
deriving DecidableEq, Repr

/-- CircuitBreaker::new: closed, zero counters, success_threshold 2. -/
def CircuitBreaker.new (name : String) (failure_threshold : Nat)
    (recovery_timeout : Nat) : CircuitBreaker :=
  ⟨name, CBState.Closed, 0, 0, failure_threshold, 2, recovery_timeout, none⟩

/-- CircuitBreaker::open_circuit: set state Open and record the failure
time; the counters are left untouched (circuit_breaker.rs lines 114
to 122). -/
def CircuitBreaker.open_circuit (cb : CircuitBreaker) (now : Nat) :
    CircuitBreaker :=
  { cb with state := CBState.Open, last_failure := some now }

/-- CircuitBreaker::is_open (circuit_breaker.rs lines 48 to 70).
Returns whether the call is rejected, together with the possibly
updated breaker (the Open to HalfOpen transition happens here). -/
def CircuitBreaker.is_open (cb : CircuitBreaker) (now : Nat) :
    Bool × CircuitBreaker :=
  match cb.state with
  | CBState.Closed => (false, cb)
  | CBState.Open =>
    match cb.last_failure with
    | some last =>
      if now - last ≥ cb.recovery_timeout then
        (false, { cb with state := CBState.HalfOpen, success_count := 0 })
      else
        (true, cb)
    | none => (true, cb)
  | CBState.HalfOpen => (false, cb)

/-- CircuitBreaker::record_success (circuit_breaker.rs lines 73 to 92). -/
def CircuitBreaker.record_success (cb : CircuitBreaker) : CircuitBreaker :=
  match cb.state with
  | CBState.HalfOpen =>
    let count := cb.success_count + 1
    if count ≥ cb.success_threshold then
      { cb with state := CBState.Closed, failure_count := 0,
                success_count := count }
    else
      { cb with success_count := count }
  | CBState.Closed => { cb with failure_count := 0 }
  | CBState.Open => cb

/-- CircuitBreaker::record_failure (circuit_breaker.rs lines 95 to 111). -/
def CircuitBreaker.record_failure (cb : CircuitBreaker) (now : Nat) :
    CircuitBreaker :=
  match cb.state with
  | CBState.Closed =>
    let count := cb.failure_count + 1
    let cb := { cb with failure_count := count }
    if count ≥ cb.failure_threshold then cb.open_circuit now else cb
  | CBState.HalfOpen => cb.open_circuit now
  | CBState.Open => cb

/-- An observable circuit breaker event: an allow() probe at a given
time, a recorded success, or a recorded failure at a given time. -/
inductive CBEvent where
  | allow (now : Nat)
  | success
  | failure (now : Nat)
deriving DecidableEq, Repr

/-- One observed step of the source circuit breaker: the new breaker
state plus, for allow events, whether the call was allowed. -/
def CircuitBreaker.step (cb : CircuitBreaker) : CBEvent → CircuitBreaker × Option Bool
  | CBEvent.allow now =>
    let r := cb.is_open now
    (r.2, some (!r.1))
  | CBEvent.success => (cb.record_success, none)
  | CBEvent.failure now => (cb.record_failure now, none)

/-- Specification-side circuit breaker step, written from the words of
spec section 4.1 as amended: in Closed a failure increments
failure_count and reaching failure_threshold moves to Open recording
last_failure (counters keep their values at this transition); in Open,
allow is rejected until recovery_timeout has elapsed since
last_failure, and the first allow after that moves to HalfOpen
clearing success_count; in HalfOpen any failure reopens immediately,
and the second success closes the breaker clearing failure_count; in
Closed a success clears failure_count. -/
def circuitSpecStep (cb : CircuitBreaker) : CBEvent → CircuitBreaker × Option Bool
  | CBEvent.failure now =>
    (match cb.state with
     | CBState.Closed =>
       if cb.failure_count + 1 ≥ cb.failure_threshold then
         { cb with state := CBState.Open,
                   failure_count := cb.failure_count + 1,
                   last_failure := some now }
       else
         { cb with failure_count := cb.failure_count + 1 }
     | CBState.HalfOpen =>
       { cb with state := CBState.Open, last_failure := some now }
     | CBState.Open => cb,
     none)
  | CBEvent.success =>
    (match cb.state with
     | CBState.HalfOpen =>
       if cb.success_count + 1 ≥ 2 then
         { cb with state := CBState.Closed, failure_count := 0,
                   success_count := cb.success_count + 1 }
       else
         { cb with success_count := cb.success_count + 1 }
     | CBState.Closed => { cb with failure_count := 0 }
     | CBState.Open => cb,
     none)
  | CBEvent.allow now =>
    match cb.state with
    | CBState.Closed => (cb, some true)
    | CBState.Open =>
      match cb.last_failure with
      | some last =>
        if now - last ≥ cb.recovery_timeout then
          ({ cb with state := CBState.HalfOpen, success_count := 0 },
            some true)
        else
          (cb, some false)
      | none => (cb, some false)
    | CBState.HalfOpen => (cb, some true)

/-! ## Script storage (src/edge-agent/src/scripting/storage.rs) -/

/-- Script status (storage.rs, enum ScriptStatus). -/
inductive ScriptStatus where
  | Active
  | Paused
  | Error
  | Running
deriving DecidableEq, Repr

/-- Modelled from the spec: trigger kinds (spec section 3; the payloads
and the trigger evaluation live in scripting code outside src/, so only
the variant tags are modelled; trigger firing is an oracle parameter of
the trigger loop below). -/
inductive TriggerType where
  | Startup | Periodic | Threshold | Edge | Schedule | Mqtt
deriving DecidableEq, Repr

/-- Modelled from the spec: the persisted script definition
(spec section 3; scripting/mod.rs is not part of src/). Field names
follow the accesses made by engine.rs and storage.rs. -/
structure ScriptDefinition where
  id : String
  name : String
  enabled : Bool
  triggers : List TriggerType
  conditions : List Condition
  actions : List Action
  on_error : List Action
deriving DecidableEq, Repr

/-- Script runtime record (storage.rs, struct Script). Timestamps are
modelled as Nat. -/
structure Script where
  definition : ScriptDefinition
  status : ScriptStatus
  last_run : Option Nat
  last_result : Option String
  error_count : Nat
  created_at : Nat
  updated_at : Nat
deriving DecidableEq, Repr

/-- Script storage state (storage.rs, struct ScriptStorage): the
in-memory id to script map, modelled as an association list. -/
structure ScriptStorage where
  scripts : List (String × Script)
deriving DecidableEq, Repr

/-- ScriptStorage::get. -/
def ScriptStorage.get (st : ScriptStorage) (id : String) : Option Script :=
  List.lookup id st.scripts

/-- HashMap get_mut followed by a field mutation: apply f to the entry
stored under id, leaving the map unchanged when id is absent. -/
def ScriptStorage.updateScript (st : ScriptStorage) (id : String)
    (f : Script → Script) : ScriptStorage :=
  ⟨st.scripts.map (fun p => if id = p.1 then (p.1, f p.2) else p)⟩

/-- ScriptStorage::get_active (storage.rs lines 192 to 196): scripts
whose status is Active and whose definition is enabled. -/
def ScriptStorage.get_active (st : ScriptStorage) : List Script :=
  (st.scripts.filter
    (fun p => p.2.status == ScriptStatus.Active && p.2.definition.enabled)).map
    (fun p => p.2)

/-- ScriptStorage::enable (storage.rs lines 218 to 237): set enabled and
status Active, refresh updated_at, and report whether the id existed.
Disk persistence is outside the model. -/
def ScriptStorage.enable (st : ScriptStorage) (id : String) (now : Nat) :
    ScriptStorage × Bool :=
  match st.get id with
  | some _ =>
    (st.updateScript id (fun s =>
      { s with definition := { s.definition with enabled := true },
               status := ScriptStatus.Active,
               updated_at := now }), true)
  | none => (st, false)

/-- ScriptStorage::update_result (storage.rs lines 262 to 282): record
last_run and last_result; on success clear error_count and restore a
Running status to Active; on failure increment error_count and set
status Error once the count reaches 5. -/
def ScriptStorage.update_result (st : ScriptStorage) (id : String)
    (success : Bool) (result : String) (now : Nat) : ScriptStorage :=
  st.updateScript id (fun script =>
    let script := { script with last_run := some now,
                                last_result := some result }
    if success then
      { script with error_count := 0,
                    status := if script.status == ScriptStatus.Running then
                                ScriptStatus.Active
                              else script.status }
    else
      let ec := script.error_count + 1
      { script with error_count := ec,
                    status := if ec ≥ 5 then ScriptStatus.Error
                              else script.status })

/-- The status := Running marking at dispatch entry
(engine.rs lines 270 to 273). -/
def ScriptStorage.set_running (st : ScriptStorage) (id : String) :
    ScriptStorage :=
  st.updateScript id (fun s => { s with status := ScriptStatus.Running })

/-! ## Execution limits and rate limiter
(src/edge-agent/src/scripting/limits.rs) -/

/-- Execution limits (limits.rs, struct ScriptLimits).
max_execution_time is carried in seconds; wall-clock progress itself is
an oracle of the engine model. -/
structure ScriptLimits where
  max_execution_time : Nat
  max_actions_per_run : Nat
  max_call_depth : Nat
  max_delay_ms : Nat
  rate_limit_per_minute : Nat
deriving DecidableEq, Repr

/-- ScriptLimits::default. -/
def ScriptLimits.default : ScriptLimits := ⟨30, 50, 5, 60000, 60⟩

/-- Per-script rate limit window (limits.rs, struct RateLimitWindow).
window_start is a Nat timestamp in seconds. -/
structure RateLimitWindow where
  count : Nat
  window_start : Nat
deriving DecidableEq, Repr

/-- Rate limiter state (limits.rs, struct ScriptRateLimiter). -/
structure ScriptRateLimiter where
  windows : List (String × RateLimitWindow)
  default_limit : Nat
deriving DecidableEq, Repr

/-- ScriptRateLimiter::new. -/
def ScriptRateLimiter.new (default_limit : Nat) : ScriptRateLimiter :=
  ⟨[], default_limit⟩

/-- ScriptRateLimiter::check (limits.rs lines 92 to 110): fetch or
insert the window for the script, reset it once 60 seconds have
elapsed, then increment the counter and accept only when the
pre-increment count was below the limit. Returns the acceptance
decision and the updated limiter. -/
def ScriptRateLimiter.check (rl : ScriptRateLimiter) (script_id : String)
    (now : Nat) : Bool × ScriptRateLimiter :=
  let w := (List.lookup script_id rl.windows).getD ⟨0, now⟩
  let w := if now - w.window_start ≥ 60 then ⟨0, now⟩ else w
  let current := w.count
  let updated : RateLimitWindow := ⟨current + 1, w.window_start⟩
  (decide (current < rl.default_limit),
    ⟨alInsert script_id updated rl.windows, rl.default_limit⟩)

/-- Limit violation errors (limits.rs, enum LimitError). -/
inductive LimitError where
  | TimeExceeded
  | ActionLimitExceeded
  | CallDepthExceeded
  | RateLimitExceeded
  | DelayTooLong
deriving DecidableEq, Repr

/-- Execution context for tracking limits during a script run
(limits.rs, struct ExecutionContext). start_time is not carried: the
is_time_exceeded comparison against the wall clock is an oracle of the
engine model. -/
structure ExecutionContext where
  call_depth : Nat
  actions_executed : Nat
  limits : ScriptLimits
deriving DecidableEq, Repr

/-- ExecutionContext::record_action (limits.rs lines 184 to 193), with
the is_time_exceeded comparison supplied as the timeExc argument:
reject on exceeded time, then on the action quota, else increment the
action counter. -/
def ExecutionContext.record_action (ctx : ExecutionContext)
    (timeExc : Bool) : Except LimitError ExecutionContext :=
  if timeExc then
    Except.error LimitError.TimeExceeded
  else if ctx.actions_executed ≥ ctx.limits.max_actions_per_run then
    Except.error LimitError.ActionLimitExceeded
  else
    Except.ok { ctx with actions_executed := ctx.actions_executed + 1 }

/-! ## Script engine (src/edge-agent/src/scripting/engine.rs) -/

/-- Script execution result (engine.rs, struct ExecutionResult).
duration_ms is wall-clock and always 0 in the model; timestamp carries
the Nat time of the call. -/
structure ExecutionResult where
  script_id : String
  success : Bool
  actions_executed : Nat
  actions_failed : Nat
  results : List ActionResult
  duration_ms : Nat
  timestamp : Nat
deriving DecidableEq, Repr

/-- Environment of an execute call: the configured limits plus oracles
for the parts of a dispatch that live outside src/ or outside a pure
model: evalCond is the context-dependent condition evaluation
(context.rs is not part of src/), dispatch is the outcome of
execute_action_with_depth for one action (hardware actor round trips),
and timeExceeded is the wall-clock is_time_exceeded probe before the
i-th action of the run. -/
structure EngineEnv where
  limits : ScriptLimits
  evalCond : Condition → Bool
  dispatch : Action → ActionResult
  timeExceeded : Nat → Bool

/-- ScriptEngine::evaluate_conditions (engine.rs lines 367 to 374):
short-circuit conjunction of the script-level conditions. -/
def evaluate_conditions (evalCond : Condition → Bool) :
    List Condition → Bool
  | [] => true
  | c :: rest =>
    if evalCond c then evaluate_conditions evalCond rest else false

/-- Accumulated outcome of the primary action loop of
execute_with_depth. -/
structure ActionLoopResult where
  results : List ActionResult
  executed : Nat
  failed : Nat
  ctx : ExecutionContext
  iter : Nat
deriving Repr

/-- The primary action loop of execute_with_depth (engine.rs lines 300
to 332): per action, break with a failure result when the time budget
is exceeded, break with a failure result when record_action reports
ActionLimitExceeded, otherwise dispatch and tally the result. The
returned counters are the contribution of the remaining actions. -/
def runActions (env : EngineEnv) :
    List Action → ExecutionContext → Nat → ActionLoopResult
  | [], ctx, i => ⟨[], 0, 0, ctx, i⟩
  | a :: rest, ctx, i =>
    if env.timeExceeded i then
      ⟨[ActionResult.mkFailure ActionType.Noop
          "Execution time limit exceeded"], 0, 1, ctx, i⟩
    else
      match ctx.record_action (env.timeExceeded i) with
      | Except.error LimitError.ActionLimitExceeded =>
        ⟨[ActionResult.mkFailure ActionType.Noop
            ("Action limit (" ++ toString ctx.limits.max_actions_per_run
              ++ ") exceeded")], 0, 1, ctx, i⟩
      | Except.error _ =>
        let r := env.dispatch a
        let rest_out := runActions env rest ctx (i + 1)
        ⟨r :: rest_out.results,
          if r.success then rest_out.executed + 1 else rest_out.executed,
          if r.success then rest_out.failed else rest_out.failed + 1,
          rest_out.ctx, rest_out.iter⟩
      | Except.ok ctx2 =>
        let r := env.dispatch a
        let rest_out := runActions env rest ctx2 (i + 1)
        ⟨r :: rest_out.results,
          if r.success then rest_out.executed + 1 else rest_out.executed,
          if r.success then rest_out.failed else rest_out.failed + 1,
          rest_out.ctx, rest_out.iter⟩

/-- The on_error loop of execute_with_depth (engine.rs lines 335 to
344): error actions share the same ExecutionContext; any record_action
error breaks; dispatched results are appended without touching the
executed and failed counters. -/
def run_on_error (env : EngineEnv) :
    List Action → ExecutionContext → Nat → List ActionResult
  | [], _, _ => []
  | a :: rest, ctx, i =>
    match ctx.record_action (env.timeExceeded i) with
    | Except.error _ => []
    | Except.ok ctx2 =>
      let r := env.dispatch a
      r :: run_on_error env rest ctx2 (i + 1)

/-- Outcome of one execute_with_depth call: the execution result
together with the storage and rate limiter state after the call. -/
structure ExecOutcome where
  result : ExecutionResult
  storage : ScriptStorage
  rate : ScriptRateLimiter
deriving Repr

/-- ScriptEngine::execute_with_depth (engine.rs lines 226 to 364):
depth gate, rate gate, fetch, mark Running, condition gate, action
loop, on_error loop, update_result, aggregate result. A missing script
surfaces as the transport-level error of the source. -/
def execute_with_depth (env : EngineEnv) (storage : ScriptStorage)
    (rate : ScriptRateLimiter) (script_id : String) (now : Nat)
    (depth : Nat) : Except String ExecOutcome :=
  if depth ≥ env.limits.max_call_depth then
    Except.ok ⟨⟨script_id, false, 0, 1,
      [ActionResult.mkFailure ActionType.CallScript
        ("Max call depth (" ++ toString env.limits.max_call_depth
          ++ ") exceeded")], 0, now⟩, storage, rate⟩
  else
    let rc := rate.check script_id now
    if rc.1 then
      match storage.get script_id with
      | none => Except.error ("Script not found: " ++ script_id)
      | some script =>
        let definition := script.definition
        let storage1 := storage.set_running script_id
        if evaluate_conditions env.evalCond definition.conditions then
          let ctx0 : ExecutionContext := ⟨depth, 0, env.limits⟩
          let loop := runActions env definition.actions ctx0 0
          let err_results :=
            if loop.failed > 0 && !definition.on_error.isEmpty then
              run_on_error env definition.on_error loop.ctx loop.iter
            else []
          let all_results := loop.results ++ err_results
          let success := loop.failed == 0
          let result_msg :=
            if success then
              "Completed " ++ toString loop.executed ++ " actions"
            else
              toString loop.failed ++ " actions failed"
          let storage2 := storage1.update_result script_id success
            result_msg now
          Except.ok ⟨⟨script_id, success, loop.executed, loop.failed,
            all_results, 0, now⟩, storage2, rc.2⟩
        else
          let storage2 := storage1.update_result script_id true
            "Conditions not met - skipped" now
          Except.ok ⟨⟨script_id, true, 0, 0, [], 0, now⟩, storage2, rc.2⟩
    else
      Except.ok ⟨⟨script_id, false, 0, 1,
        [ActionResult.mkFailure ActionType.Noop
          ("Rate limit exceeded (" ++ toString env.limits.rate_limit_per_minute
            ++ "/min)")], 0, now⟩, storage, rc.2⟩

/-- ScriptEngine::check_all_triggers (engine.rs lines 190 to 212):
iterate the active scripts; a script whose triggers contain at least
one firing trigger (the fires oracle stands for
TriggerManager::check_trigger, which lives outside src/) is appended
once to the run list. This is the per-script step of the loop. -/
def triggerFoldStep (fires : String → Nat → Bool) (acc : List String)
    (s : Script) : List String :=
  if (List.range s.definition.triggers.length).any
      (fun idx => fires s.definition.id idx) then
    if acc.contains s.definition.id then acc
    else acc ++ [s.definition.id]
  else acc

/-- The iteration over the active scripts of check_all_triggers. -/
def check_all_triggers (fires : String → Nat → Bool) (st : ScriptStorage) :
    List String :=
  st.get_active.foldl (triggerFoldStep fires) []

/-! ## Hardware-facing GPIO dispatch (engine.rs lines 472 to 503) -/

/-- A write request received by a hardware actor. -/
inductive HwCall where
  | gpioWritePin (pin : Nat) (value : Bool)
  | modbusWriteRegister (device : String) (address : Nat) (value : Nat)
  | modbusWriteCoil (device : String) (address : Nat) (value : Bool)
deriving DecidableEq, Repr

/-- The u8 parse of the action target (action.target.parse in
action_set_gpio): all-digit nonempty strings denote their decimal
value, accepted when it fits in a byte. -/
def parseU8 (s : String) : Option Nat :=
  if s.data ≠ [] ∧ s.data.all Char.isDigit then
    let n := s.data.foldl (fun acc c => acc * 10 + (c.toNat - 48)) 0
    if n < 256 then some n else none
  else none

/-- JsonValue::as_bool. -/
def JsonValue.as_bool : JsonValue → Option Bool
  | JsonValue.bool b => some b
  | _ => none

/-- ScriptEngine::action_set_gpio (engine.rs lines 472 to 503): parse
the pin and value, then, when a GPIO handle is available, send
write_pin to the actor (the writePin oracle is the actor reply) and map
the reply to the action result. The returned list is the hardware
traffic the dispatch generates; no conflict detector is consulted
anywhere on this path. -/
def action_set_gpio (gpioHandle : Bool)
    (writePin : Nat → Bool → Except String Unit) (action : Action) :
    ActionResult × List HwCall :=
  match parseU8 action.target with
  | none => (ActionResult.mkFailure ActionType.SetGpio "Invalid pin number", [])
  | some pin =>
    match action.value.bind JsonValue.as_bool with
    | none =>
      (ActionResult.mkFailure ActionType.SetGpio "Missing or invalid value", [])
    | some value =>
      if gpioHandle then
        match writePin pin value with
        | Except.ok _ =>
          (ActionResult.mkSuccess ActionType.SetGpio
            ("Set GPIO " ++ toString pin ++ " to "
              ++ (if value then "HIGH" else "LOW")),
            [HwCall.gpioWritePin pin value])
        | Except.error e =>
          (ActionResult.mkFailure ActionType.SetGpio ("Failed: " ++ e),
            [HwCall.gpioWritePin pin value])
      else
        (ActionResult.mkFailure ActionType.SetGpio "GPIO not available", [])

/-! ## Helper lemmas -/

/-- Updating the entry stored under id rewrites exactly what get id
returns. -/
theorem ScriptStorage.get_updateScript (st : ScriptStorage) (id : String)
    (f : Script → Script) :
    (st.updateScript id f).get id = (st.get id).map f := by
  rcases st with ⟨l⟩
  induction l with
  | nil => rfl
  | cons p rest ih =>
    obtain ⟨k, s⟩ := p
    simp only [ScriptStorage.updateScript, ScriptStorage.get, List.map]
      at ih ⊢
    by_cases h : id = k
    · subst h
      rw [if_pos rfl]
      simp [List.lookup]
    · rw [if_neg h]
      have hb : (id == k) = false := beq_eq_false_iff_ne.mpr h
      simp only [List.lookup, hb]
      exact ih

/-- Looking up a key of an association list with nodup keys finds the
member stored under it. -/
theorem lookup_eq_of_mem_of_nodup {β : Type} (l : List (String × β))
    (k : String) (v : β) (hnd : (l.map Prod.fst).Nodup)
    (hmem : (k, v) ∈ l) : List.lookup k l = some v := by
  induction l with
  | nil => cases hmem
  | cons p rest ih =>
    rcases List.mem_cons.mp hmem with h | h
    · subst h
      simp [List.lookup]
    · have hk : k ∈ rest.map Prod.fst :=
        List.mem_map.mpr ⟨(k, v), h, rfl⟩
      have hne : p.1 ≠ k := by
        intro he
        exact (List.nodup_cons.mp hnd).1 (he ▸ hk)
      have hb : (k == p.1) = false := beq_eq_false_iff_ne.mpr (Ne.symm hne)
      simp only [List.lookup, hb]
      exact ih (List.nodup_cons.mp hnd).2 h

/-- Members of get_active come from stored pairs with Active status and
an enabled definition. -/
theorem mem_get_active (st : ScriptStorage) (s : Script)
    (h : s ∈ st.get_active) :
    ∃ p, p ∈ st.scripts ∧ p.2 = s ∧ s.status = ScriptStatus.Active ∧
      s.definition.enabled = true := by
  rcases List.mem_map.mp h with ⟨p, hp, rfl⟩
  rcases List.mem_filter.mp hp with ⟨hmem, hcond⟩
  simp only [Bool.and_eq_true, beq_iff_eq] at hcond
  exact ⟨p, hmem, rfl, hcond.1, hcond.2⟩

/-- One trigger-fold step only ever adds the id of the script it
inspects. -/
theorem mem_triggerFoldStep (fires : String → Nat → Bool)
    (acc : List String) (s : Script) (id : String)
    (h : id ∈ triggerFoldStep fires acc s) :
    id ∈ acc ∨ id = s.definition.id := by
  unfold triggerFoldStep at h
  split at h
  · split at h
    · exact Or.inl h
    · rcases List.mem_append.mp h with h1 | h1
      · exact Or.inl h1
      · exact Or.inr (List.mem_singleton.mp h1)
  · exact Or.inl h

/-- Everything the trigger fold emits is the id of a visited script or
was in the accumulator already. -/
theorem mem_foldl_triggerFoldStep (fires : String → Nat → Bool)
    (id : String) :
    ∀ (l : List Script) (acc : List String),
      id ∈ l.foldl (triggerFoldStep fires) acc →
      id ∈ acc ∨ ∃ s, s ∈ l ∧ s.definition.id = id := by
  intro l
  induction l with
  | nil => intro acc h; exact Or.inl h
  | cons s rest ih =>
    intro acc h
    rcases ih (triggerFoldStep fires acc s) h with h1 | ⟨t, ht, hid⟩
    · rcases mem_triggerFoldStep fires acc s id h1 with h2 | h2
      · exact Or.inl h2
      · exact Or.inr ⟨s, List.mem_cons_self s rest, h2.symm⟩
    · exact Or.inr ⟨t, List.mem_cons_of_mem s ht, hid⟩

/-- Every id selected by check_all_triggers is the id of an active
script. -/
theorem mem_check_all_triggers (fires : String → Nat → Bool)
    (st : ScriptStorage) (id : String)
    (h : id ∈ check_all_triggers fires st) :
    ∃ s, s ∈ st.get_active ∧ s.definition.id = id := by
  rcases mem_foldl_triggerFoldStep fires id st.get_active [] h with h1 | h1
  · cases h1
  · exact h1

/-! ## Claim C5 -/

/-- Claim C5: for every attempted write checked by the ConflictDetector
(GPIO pin, Modbus register, or Modbus coil), the outcome and the
updated pending-write table match the specified arbitration: absent
target pends the write with NoConflict, a same-script pending write is
overwritten with NoConflict, an equal value from a different script is
Duplicate without overwrite, and anything else is Conflict with a
message and a last-write-wins overwrite. -/
theorem conflict_detector_refines_spec (d : ConflictDetector)
    (sid device : String) (pin address : Nat) (b : Bool) (v : Nat) :
    (((d.check_gpio_write sid pin b).1.kind,
        (d.check_gpio_write sid pin b).2.gpio_writes) =
      checkWriteSpec d.gpio_writes sid pin (WriteValue.bool b) ∧
      (d.check_gpio_write sid pin b).2.modbus_writes = d.modbus_writes ∧
      (d.check_gpio_write sid pin b).2.coil_writes = d.coil_writes) ∧
    (((d.check_modbus_write sid device address v).1.kind,
        (d.check_modbus_write sid device address v).2.modbus_writes) =
      checkWriteSpec d.modbus_writes sid (device, address)
        (WriteValue.u16 v) ∧
      (d.check_modbus_write sid device address v).2.gpio_writes =
        d.gpio_writes ∧
      (d.check_modbus_write sid device address v).2.coil_writes =
        d.coil_writes) ∧
    (((d.check_coil_write sid device address b).1.kind,
        (d.check_coil_write sid device address b).2.coil_writes) =
      checkWriteSpec d.coil_writes sid (device, address)
        (WriteValue.bool b) ∧
      (d.check_coil_write sid device address b).2.gpio_writes =
        d.gpio_writes ∧
      (d.check_coil_write sid device address b).2.modbus_writes =
        d.modbus_writes) := by
  refine ⟨⟨?_, ?_, ?_⟩, ⟨?_, ?_, ?_⟩, ⟨?_, ?_, ?_⟩⟩
  · simp only [ConflictDetector.check_gpio_write, checkWriteSpec]
    rcases h : List.lookup pin d.gpio_writes with _ | e <;>
      simp only [h] <;> (try split_ifs) <;> simp [ConflictResult.kind]
  · simp only [ConflictDetector.check_gpio_write]
    rcases h : List.lookup pin d.gpio_writes with _ | e <;>
      simp only [h] <;> (try split_ifs) <;> simp
  · simp only [ConflictDetector.check_gpio_write]
    rcases h : List.lookup pin d.gpio_writes with _ | e <;>
      simp only [h] <;> (try split_ifs) <;> simp
  · simp only [ConflictDetector.check_modbus_write, checkWriteSpec]
    rcases h : List.lookup (device, address) d.modbus_writes with _ | e <;>
      simp only [h] <;> (try split_ifs) <;> simp [ConflictResult.kind]
  · simp only [ConflictDetector.check_modbus_write]
    rcases h : List.lookup (device, address) d.modbus_writes with _ | e <;>
      simp only [h] <;> (try split_ifs) <;> simp
  · simp only [ConflictDetector.check_modbus_write]
    rcases h : List.lookup (device, address) d.modbus_writes with _ | e <;>
      simp only [h] <;> (try split_ifs) <;> simp
  · simp only [ConflictDetector.check_coil_write, checkWriteSpec]
    rcases h : List.lookup (device, address) d.coil_writes with _ | e <;>
      simp only [h] <;> (try split_ifs) <;> simp [ConflictResult.kind]
  · simp only [ConflictDetector.check_coil_write]
    rcases h : List.lookup (device, address) d.coil_writes with _ | e <;>
      simp only [h] <;> (try split_ifs) <;> simp
  · simp only [ConflictDetector.check_coil_write]
    rcases h : List.lookup (device, address) d.coil_writes with _ | e <;>
      simp only [h] <;> (try split_ifs) <;> simp

/-! ## Claim C3 -/

/-- Claim C3 counterexample: the claim asserts that reaching
failure_threshold failures in Closed moves the breaker to Open and
resets the counters; on the source, after one failure with threshold 1
the breaker is Open but failure_count is 1, not 0. -/
theorem circuit_breaker_open_keeps_counter :
    ((CircuitBreaker.new "modbus" 1 30).record_failure 0).state =
        CBState.Open ∧
      ((CircuitBreaker.new "modbus" 1 30).record_failure 0).failure_count
        = 1 := by
  constructor <;> rfl

/-- Claim C3 (amended): every observed circuit breaker transition
matches the section 4.1 state machine with the counter handling
amended: the counters are not reset on the transition to Open;
success_count is cleared when Open moves to HalfOpen and failure_count
is cleared when the breaker closes. Stated as: for breakers with the
success_threshold of 2 installed by the constructor, each observable
step of the source equals the specification-side step function. -/
theorem circuit_breaker_step_matches_spec (cb : CircuitBreaker)
    (e : CBEvent) (h2 : cb.success_threshold = 2) :
    cb.step e = circuitSpecStep cb e := by
  cases e with
  | allow now =>
    cases hs : cb.state <;>
      simp [CircuitBreaker.step, CircuitBreaker.is_open, circuitSpecStep, hs]
    rcases cb.last_failure with _ | last
    · simp
    · by_cases hrec : now - last ≥ cb.recovery_timeout <;> simp [hrec]
  | success =>
    cases hs : cb.state <;>
      simp [CircuitBreaker.step, CircuitBreaker.record_success,
        circuitSpecStep, hs, h2]
  | failure now =>
    cases hs : cb.state <;>
      simp [CircuitBreaker.step, CircuitBreaker.record_failure,
        CircuitBreaker.open_circuit, circuitSpecStep, hs]

/-- Claim C3 witness: the step equivalence applied to a concrete
breaker and event. -/
theorem circuit_breaker_step_matches_spec_witness :
    (CircuitBreaker.new "modbus" 5 30).step CBEvent.success =
      circuitSpecStep (CircuitBreaker.new "modbus" 5 30)
        CBEvent.success :=
  circuit_breaker_step_matches_spec (CircuitBreaker.new "modbus" 5 30)
    CBEvent.success rfl

/-! ## Claims C6 and C7 -/

/-- Claim C6: a call at or beyond max_call_depth returns a failure
ExecutionResult whose single result is a call_script failure with the
message naming max_call_depth, and neither the storage nor the rate
limiter state is touched. -/
theorem execute_depth_exceeded (env : EngineEnv) (st : ScriptStorage)
    (rate : ScriptRateLimiter) (id : String) (now depth : Nat)
    (h : depth ≥ env.limits.max_call_depth) :
    execute_with_depth env st rate id now depth =
      Except.ok ⟨⟨id, false, 0, 1,
        [ActionResult.mkFailure ActionType.CallScript
          ("Max call depth (" ++ toString env.limits.max_call_depth
            ++ ") exceeded")], 0, now⟩, st, rate⟩ := by
  unfold execute_with_depth
  rw [if_pos h]

/-- Sample engine environment for witnesses: default limits, every
condition true, every dispatch successful, time budget never
exceeded. -/
def sampleEnvOk : EngineEnv :=
  ⟨ScriptLimits.default, fun _ => true,
    fun _ => ActionResult.mkSuccess ActionType.Noop "ok", fun _ => false⟩

/-- Claim C6 witness: the depth gate evaluated at depth 5 under the
default limits. -/
theorem execute_depth_exceeded_witness :
    execute_with_depth sampleEnvOk ⟨[]⟩ (ScriptRateLimiter.new 60)
        "scriptX" 3 5 =
      Except.ok ⟨⟨"scriptX", false, 0, 1,
        [ActionResult.mkFailure ActionType.CallScript
          "Max call depth (5) exceeded"], 0, 3⟩, ⟨[]⟩,
        ScriptRateLimiter.new 60⟩ :=
  execute_depth_exceeded sampleEnvOk ⟨[]⟩ (ScriptRateLimiter.new 60)
    "scriptX" 3 5 (by decide)

/-- Claim C7: a call rejected by the rate limiter returns a failure
ExecutionResult whose single result message names
rate_limit_per_minute, and the storage (hence every script status and
error_count) is unchanged; only the limiter window advances. -/
theorem execute_rate_limited (env : EngineEnv) (st : ScriptStorage)
    (rate : ScriptRateLimiter) (id : String) (now depth : Nat)
    (hdep : depth < env.limits.max_call_depth)
    (hr : (rate.check id now).1 = false) :
    execute_with_depth env st rate id now depth =
      Except.ok ⟨⟨id, false, 0, 1,
        [ActionResult.mkFailure ActionType.Noop
          ("Rate limit exceeded ("
            ++ toString env.limits.rate_limit_per_minute ++ "/min)")],
        0, now⟩, st, (rate.check id now).2⟩ := by
  have h1 : ¬ depth ≥ env.limits.max_call_depth := by omega
  simp [execute_with_depth, h1, hr]

/-- Rate limiter state with the script window already saturated, for
the C7 witness. -/
def saturatedLimiter : ScriptRateLimiter := ⟨[("s", ⟨60, 0⟩)], 60⟩

/-- Claim C7 witness: a rejected call evaluated on a saturated
window. -/
theorem execute_rate_limited_witness :
    execute_with_depth sampleEnvOk ⟨[]⟩ saturatedLimiter "s" 10 0 =
      Except.ok ⟨⟨"s", false, 0, 1,
        [ActionResult.mkFailure ActionType.Noop
          "Rate limit exceeded (60/min)"], 0, 10⟩, ⟨[]⟩,
        ⟨[("s", ⟨61, 0⟩)], 60⟩⟩ :=
  execute_rate_limited sampleEnvOk ⟨[]⟩ saturatedLimiter "s" 10 0
    (by decide) (by decide)

/-! ## Claim C2 -/

/-- Engine environment in which every dispatched action fails. -/
def failEnv : EngineEnv :=
  ⟨ScriptLimits.default, fun _ => true,
    fun _ => ActionResult.mkFailure ActionType.Noop "boom", fun _ => false⟩

/-- Enabled active script with one action and a clean error history. -/
def c2Script : Script :=
  ⟨⟨"s1", "one", true, [], [], [baseAction ActionType.Noop ""], []⟩,
    ScriptStatus.Active, none, none, 0, 0, 0⟩

/-- Claim C2 evaluated at the failing input: a run that completes with
a failed action (prior error_count 0) leaves the stored status at
Running after execute returns, because ScriptStorage::update_result
only restores a Running status on success or replaces it with Error at
five failures. -/
theorem running_status_persists_after_failed_run :
    (execute_with_depth failEnv ⟨[("s1", c2Script)]⟩
        (ScriptRateLimiter.new 60) "s1" 0 0).map
      (fun o => (o.result.success, (o.storage.get "s1").map Script.status))
      = Except.ok (false, some ScriptStatus.Running) := by
  rfl

/-! ## Claim C10 -/

/-- Claim C10: when a script-level condition evaluates false, execute
returns a success result with zero actions and an empty results list,
and storage records the run through update_result with success and the
message Conditions not met - skipped, which clears error_count and
restores the status from Running to Active. -/
theorem execute_conditions_skip (env : EngineEnv) (st : ScriptStorage)
    (rate : ScriptRateLimiter) (id : String) (script : Script)
    (now depth : Nat)
    (hdep : depth < env.limits.max_call_depth)
    (hr : (rate.check id now).1 = true)
    (hg : st.get id = some script)
    (hc : evaluate_conditions env.evalCond script.definition.conditions
      = false) :
    execute_with_depth env st rate id now depth =
      Except.ok ⟨⟨id, true, 0, 0, [], 0, now⟩,
        (st.set_running id).update_result id true
          "Conditions not met - skipped" now, (rate.check id now).2⟩ ∧
    ((st.set_running id).update_result id true
        "Conditions not met - skipped" now).get id =
      some { script with
             status := ScriptStatus.Active
             error_count := 0
             last_run := some now
             last_result := some "Conditions not met - skipped" } := by
  constructor
  · have h1 : ¬ depth ≥ env.limits.max_call_depth := by omega
    simp [execute_with_depth, h1, hr, hg, hc]
  · simp [ScriptStorage.update_result, ScriptStorage.set_running,
      ScriptStorage.get_updateScript, hg]

/-- Engine environment in which every condition evaluates false. -/
def skipEnv : EngineEnv :=
  ⟨ScriptLimits.default, fun _ => false,
    fun _ => ActionResult.mkSuccess ActionType.Noop "ok", fun _ => false⟩

/-- Script with one condition and a nonzero error history, for the C10
witness. -/
def c10Script : Script :=
  ⟨⟨"s2", "two", true, [],
    [⟨"sensor.x", ComparisonOperator.Eq, JsonValue.num 1⟩],
    [baseAction ActionType.Noop ""], []⟩,
    ScriptStatus.Active, none, none, 3, 0, 0⟩

/-- Claim C10 witness: the condition-skip path evaluated on a concrete
script whose condition is false. -/
theorem execute_conditions_skip_witness :
    execute_with_depth skipEnv ⟨[("s2", c10Script)]⟩
        (ScriptRateLimiter.new 60) "s2" 9 0 =
      Except.ok ⟨⟨"s2", true, 0, 0, [], 0, 9⟩,
        ((ScriptStorage.mk [("s2", c10Script)]).set_running "s2").update_result
          "s2" true "Conditions not met - skipped" 9,
        (((ScriptRateLimiter.new 60)).check "s2" 9).2⟩ ∧
    (((ScriptStorage.mk [("s2", c10Script)]).set_running "s2").update_result
        "s2" true "Conditions not met - skipped" 9).get "s2" =
      some { c10Script with
             status := ScriptStatus.Active
             error_count := 0
             last_run := some 9
             last_result := some "Conditions not met - skipped" } :=
  execute_conditions_skip skipEnv ⟨[("s2", c10Script)]⟩
    (ScriptRateLimiter.new 60) "s2" c10Script 9 0 (by decide) rfl rfl rfl

/-! ## Claim C4 -/

/-- Claim C4: once update_result pushes error_count to 5 or more the
stored status is Error; a script whose stored status is Error is never
selected by the trigger path (check_all_triggers draws only from
get_active); and enable restores enabled and an Active status. -/
theorem sticky_error_until_enable (st : ScriptStorage) (id : String)
    (script : Script) (now : Nat) (msg : String)
    (fires : String → Nat → Bool) :
    (st.get id = some script → script.error_count + 1 ≥ 5 →
      (st.update_result id false msg now).get id =
        some { script with
               last_run := some now
               last_result := some msg
               error_count := script.error_count + 1
               status := ScriptStatus.Error }) ∧
    ((st.scripts.map Prod.fst).Nodup →
      (∀ p ∈ st.scripts, p.2.definition.id = p.1) →
      (st.get id).map Script.status = some ScriptStatus.Error →
      id ∉ check_all_triggers fires st) ∧
    (st.get id = some script →
      (st.enable id now).1.get id =
        some { script with
               definition := { script.definition with enabled := true },
               status := ScriptStatus.Active, updated_at := now }) := by
  refine ⟨?_, ?_, ?_⟩
  · intro hg hec
    simp [ScriptStorage.update_result, ScriptStorage.get_updateScript,
      hg, hec]
    intro h
    exact absurd hec (by omega)
  · intro hnd hwf hstat hmem
    rcases mem_check_all_triggers fires st id hmem with ⟨s, hsa, hsid⟩
    rcases mem_get_active st s hsa with ⟨p, hp, hps, hact, _⟩
    have hkey : p.1 = id := by rw [← hwf p hp, hps, hsid]
    have hpair : (id, s) ∈ st.scripts := by
      have : p = (id, s) := by
        rcases p with ⟨k, t⟩
        simp only at hkey hps
        rw [hkey, hps]
      exact this ▸ hp
    have hlk : List.lookup id st.scripts = some s :=
      lookup_eq_of_mem_of_nodup st.scripts id s hnd hpair
    rw [ScriptStorage.get, hlk] at hstat
    have hss : s.status = ScriptStatus.Error := by simpa using hstat
    rw [hact] at hss
    exact ScriptStatus.noConfusion hss
  · intro hg
    have h1 : (st.enable id now).1 = st.updateScript id
        (fun s => { s with
                    definition := { s.definition with enabled := true }
                    status := ScriptStatus.Active
                    updated_at := now }) := by
      unfold ScriptStorage.enable
      rw [hg]
    rw [h1, ScriptStorage.get_updateScript, hg]
    rfl

/-- Script already in the sticky Error state, for the C4 witness. -/
def c4Script : Script :=
  ⟨⟨"e1", "err", true, [TriggerType.Periodic], [], [], []⟩,
    ScriptStatus.Error, none, none, 5, 0, 0⟩

/-- Storage holding only the Error script, for the C4 witness. -/
def c4St : ScriptStorage := ⟨[("e1", c4Script)]⟩

/-- Claim C4 witness: the sticky-error behaviour evaluated on a
concrete storage with an Error script whose triggers always fire. -/
theorem sticky_error_until_enable_witness :
    (c4St.update_result "e1" false "m" 7).get "e1" =
      some { c4Script with
             last_run := some 7
             last_result := some "m"
             error_count := 6
             status := ScriptStatus.Error } ∧
    "e1" ∉ check_all_triggers (fun _ _ => true) c4St ∧
    (c4St.enable "e1" 7).1.get "e1" =
      some { c4Script with
             definition := { c4Script.definition with enabled := true },
             status := ScriptStatus.Active, updated_at := 7 } :=
  ⟨(sticky_error_until_enable c4St "e1" c4Script 7 "m"
      (fun _ _ => true)).1 rfl (by decide),
    (sticky_error_until_enable c4St "e1" c4Script 7 "m"
      (fun _ _ => true)).2.1 (by decide) (by decide) rfl,
    (sticky_error_until_enable c4St "e1" c4Script 7 "m"
      (fun _ _ => true)).2.2 rfl⟩

/-! ## Claim C8 -/

/-- A sequence of rate-limiter checks for one script at the given
times, threading the limiter state. -/
def runChecks (id : String) : ScriptRateLimiter → List Nat →
    List Bool × ScriptRateLimiter
  | rl, [] => ([], rl)
  | rl, t :: ts =>
    let c := rl.check id t
    let rest := runChecks id c.2 ts
    (c.1 :: rest.1, rest.2)

/-- Looking up the key just inserted by alInsert finds the new value. -/
theorem lookup_alInsert_self {κ β : Type} [BEq κ] [LawfulBEq κ]
    (k : κ) (v : β) (l : List (κ × β)) :
    List.lookup k (alInsert k v l) = some v := by
  simp [alInsert, List.lookup]

/-- A check inside the current window: no reset, the counter
increments, and the call is accepted exactly when the pre-increment
count is below the limit. -/
theorem check_no_roll (rl : ScriptRateLimiter) (id : String)
    (now c ws : Nat)
    (h : List.lookup id rl.windows = some ⟨c, ws⟩)
    (hn : now - ws < 60) :
    rl.check id now =
      (decide (c < rl.default_limit),
        ⟨alInsert id ⟨c + 1, ws⟩ rl.windows, rl.default_limit⟩) := by
  have hn2 : ¬ (now - ws ≥ 60) := by omega
  unfold ScriptRateLimiter.check
  rw [h]
  simp [hn2]

/-- A check after the window has aged 60 seconds resets the window to
a fresh one starting now, with the counter already incremented for
this call. -/
theorem check_roll (rl : ScriptRateLimiter) (id : String) (now c ws : Nat)
    (h : List.lookup id rl.windows = some ⟨c, ws⟩)
    (hn : now - ws ≥ 60) :
    rl.check id now =
      (decide (0 < rl.default_limit),
        ⟨alInsert id ⟨1, now⟩ rl.windows, rl.default_limit⟩) := by
  unfold ScriptRateLimiter.check
  rw [h]
  simp [hn]

/-- The first check for a script installs a window starting at the
check time. -/
theorem check_fresh (rl : ScriptRateLimiter) (id : String) (t1 : Nat)
    (h : List.lookup id rl.windows = none) :
    rl.check id t1 =
      (decide (0 < rl.default_limit),
        ⟨alInsert id ⟨1, t1⟩ rl.windows, rl.default_limit⟩) := by
  unfold ScriptRateLimiter.check
  rw [h]
  simp

/-- Within one window, the number of accepted checks starting from a
counter of c never exceeds the remaining budget. -/
theorem runChecks_count_le (id : String) :
    ∀ (ts : List Nat) (rl : ScriptRateLimiter) (c ws : Nat),
      List.lookup id rl.windows = some ⟨c, ws⟩ →
      (∀ t ∈ ts, t < ws + 60) →
      (runChecks id rl ts).1.count true ≤ rl.default_limit - c := by
  intro ts
  induction ts with
  | nil =>
    intro rl c ws h hts
    simp [runChecks]
  | cons t ts ih =>
    intro rl c ws h hts
    have hlt : t - ws < 60 := by
      have := hts t (List.mem_cons_self t ts)
      omega
    have hc := check_no_roll rl id t c ws h hlt
    have hlk2 : List.lookup id
        (alInsert id (⟨c + 1, ws⟩ : RateLimitWindow) rl.windows) =
        some ⟨c + 1, ws⟩ := lookup_alInsert_self id _ rl.windows
    have hrest := ih ⟨alInsert id ⟨c + 1, ws⟩ rl.windows, rl.default_limit⟩
      (c + 1) ws hlk2 (fun u hu => hts u (List.mem_cons_of_mem t hu))
    simp only [runChecks, hc]
    by_cases hcl : c < rl.default_limit
    · simp only [List.count_cons]
      simp [hcl] at hrest ⊢
      omega
    · simp only [List.count_cons]
      simp [hcl] at hrest ⊢
      omega

/-- Claim C8: for every script and every 60-second rate-limiter
window, at most default_limit checks are accepted: a fresh window
admits at most default_limit of any run of checks within its first 60
seconds; once the counter has reached the limit, every further check
inside the window is rejected; and a check 60 seconds after
window_start resets the window, restarting the count at this call. -/
theorem rate_limiter_window_bound (rl : ScriptRateLimiter) (id : String)
    (t1 now c ws : Nat) (ts : List Nat) :
    (List.lookup id rl.windows = none →
      (∀ t ∈ ts, t < t1 + 60) →
      (runChecks id rl (t1 :: ts)).1.count true ≤ rl.default_limit) ∧
    (List.lookup id rl.windows = some ⟨c, ws⟩ →
      rl.default_limit ≤ c → now - ws < 60 →
      (rl.check id now).1 = false) ∧
    (List.lookup id rl.windows = some ⟨c, ws⟩ →
      60 ≤ now - ws →
      rl.check id now =
        (decide (0 < rl.default_limit),
          ⟨alInsert id ⟨1, now⟩ rl.windows, rl.default_limit⟩)) := by
  refine ⟨?_, ?_, ?_⟩
  · intro h hts
    have hc := check_fresh rl id t1 h
    have hlk2 : List.lookup id
        (alInsert id (⟨1, t1⟩ : RateLimitWindow) rl.windows) =
        some ⟨1, t1⟩ := lookup_alInsert_self id _ rl.windows
    have hrest := runChecks_count_le id ts
      ⟨alInsert id ⟨1, t1⟩ rl.windows, rl.default_limit⟩ 1 t1 hlk2 hts
    simp only [runChecks, hc]
    by_cases h0 : 0 < rl.default_limit
    · simp only [List.count_cons]
      simp [h0] at hrest ⊢
      omega
    · simp only [List.count_cons]
      simp [h0] at hrest ⊢
      omega
  · intro h hcl hn
    rw [check_no_roll rl id now c ws h hn]
    simp
    omega
  · intro h hn
    exact check_roll rl id now c ws h hn

/-- Claim C8 witness: the window bound, the saturated rejection and
the 60-second reset evaluated on concrete limiter states. -/
theorem rate_limiter_window_bound_witness :
    (runChecks "s" (ScriptRateLimiter.new 2) [0, 1, 2, 3]).1.count true
        ≤ 2 ∧
    ((⟨[("s", ⟨2, 0⟩)], 2⟩ : ScriptRateLimiter).check "s" 10).1 = false ∧
    (⟨[("s", ⟨2, 0⟩)], 2⟩ : ScriptRateLimiter).check "s" 60 =
      (true, ⟨alInsert "s" ⟨1, 60⟩ [("s", ⟨2, 0⟩)], 2⟩) :=
  ⟨(rate_limiter_window_bound (ScriptRateLimiter.new 2) "s" 0 0 0 0
      [1, 2, 3]).1 rfl (by decide),
    (rate_limiter_window_bound ⟨[("s", ⟨2, 0⟩)], 2⟩ "s" 0 10 2 0 []).2.1
      rfl (by decide) (by decide),
    (rate_limiter_window_bound ⟨[("s", ⟨2, 0⟩)], 2⟩ "s" 0 60 2 0 []).2.2
      rfl (by decide)⟩

/-! ## Claim C9 -/

/-- With every dispatch succeeding and the time budget never exceeded,
a run whose remaining actions exceed the remaining quota by exactly
one executes the remaining budget, then breaks with the single
action-limit failure; the final action is never dispatched. -/
theorem runActions_quota (env : EngineEnv) (M : Nat)
    (hd : ∀ a, (env.dispatch a).success = true)
    (ht : ∀ j, env.timeExceeded j = false) :
    ∀ (acts : List Action) (ctx : ExecutionContext) (i : Nat),
      ctx.limits.max_actions_per_run = M →
      ctx.actions_executed + acts.length = M + 1 →
      ctx.actions_executed ≤ M →
      (runActions env acts ctx i).results =
        (acts.take (M - ctx.actions_executed)).map env.dispatch
          ++ [ActionResult.mkFailure ActionType.Noop
              ("Action limit (" ++ toString M ++ ") exceeded")] ∧
      (runActions env acts ctx i).executed = M - ctx.actions_executed ∧
      (runActions env acts ctx i).failed = 1 := by
  intro acts
  induction acts with
  | nil =>
    intro ctx i hM hlen hle
    simp at hlen
    omega
  | cons a rest ih =>
    intro ctx i hM hlen hle
    simp only [runActions, ht i, Bool.false_eq_true, if_false,
      ExecutionContext.record_action, hM]
    by_cases hcase : ctx.actions_executed ≥ M
    · have hEq : ctx.actions_executed = M := by omega
      rw [if_pos hcase]
      refine ⟨?_, ?_, rfl⟩
      · simp [hEq, hM]
      · simp [hEq]
    · rw [if_neg hcase]
      have hIH := ih { ctx with actions_executed := ctx.actions_executed + 1 }
        (i + 1) hM (by simp at hlen ⊢; omega) (by simp; omega)
      simp only at hIH
      have hsub : M - ctx.actions_executed =
          (M - (ctx.actions_executed + 1)) + 1 := by omega
      refine ⟨?_, ?_, ?_⟩
      · simp only [hd a, if_true, hIH.1, hsub, List.take_succ_cons,
          List.map_cons, List.cons_append]
      · simp only [hd a, if_true, hIH.2.1]
        omega
      · simp only [hd a, if_true, hIH.2.2]

/-- Claim C9: a script with max_actions_per_run + 1 actions, all of
whose dispatched actions succeed and whose on_error list is empty,
terminates with actions_executed = max_actions_per_run and
actions_failed = 1, the single failure being the action-limit result
in the last slot; the final action is never dispatched. -/
theorem execute_action_quota (env : EngineEnv) (st : ScriptStorage)
    (rate : ScriptRateLimiter) (id : String) (script : Script)
    (now depth : Nat)
    (hdep : depth < env.limits.max_call_depth)
    (hr : (rate.check id now).1 = true)
    (hg : st.get id = some script)
    (hc : evaluate_conditions env.evalCond script.definition.conditions
      = true)
    (hlen : script.definition.actions.length =
      env.limits.max_actions_per_run + 1)
    (herr : script.definition.on_error = [])
    (hd : ∀ a, (env.dispatch a).success = true)
    (ht : ∀ j, env.timeExceeded j = false) :
    execute_with_depth env st rate id now depth =
      Except.ok ⟨⟨id, false, env.limits.max_actions_per_run, 1,
        (script.definition.actions.take
            env.limits.max_actions_per_run).map env.dispatch
          ++ [ActionResult.mkFailure ActionType.Noop
              ("Action limit ("
                ++ toString env.limits.max_actions_per_run
                ++ ") exceeded")], 0, now⟩,
        (st.set_running id).update_result id false "1 actions failed" now,
        (rate.check id now).2⟩ := by
  have h1 : ¬ depth ≥ env.limits.max_call_depth := by omega
  have hq := runActions_quota env env.limits.max_actions_per_run hd ht
    script.definition.actions ⟨depth, 0, env.limits⟩ 0 rfl
    (by simpa using hlen) (by simp)
  simp only at hq
  simp [execute_with_depth, h1, hr, hg, hc, herr, hq.1, hq.2.1, hq.2.2]
  rfl

/-- Limits with an action quota of two, for the C9 witness. -/
def quotaLimits : ScriptLimits := ⟨30, 2, 5, 60000, 60⟩

/-- Environment with the small quota, every condition true, every
dispatch successful, for the C9 witness. -/
def quotaEnv : EngineEnv :=
  ⟨quotaLimits, fun _ => true,
    fun _ => ActionResult.mkSuccess ActionType.Noop "ok", fun _ => false⟩

/-- Script with three actions against the quota of two, for the C9
witness. -/
def quotaScript : Script :=
  ⟨⟨"q", "quota", true, [], [],
    [baseAction ActionType.Noop "", baseAction ActionType.Noop "",
      baseAction ActionType.Noop ""], []⟩,
    ScriptStatus.Active, none, none, 0, 0, 0⟩

/-- Claim C9 witness: the quota overflow evaluated on a script with
three actions and a quota of two. -/
theorem execute_action_quota_witness :
    execute_with_depth quotaEnv ⟨[("q", quotaScript)]⟩
        (ScriptRateLimiter.new 60) "q" 0 0 =
      Except.ok ⟨⟨"q", false, 2, 1,
        [ActionResult.mkSuccess ActionType.Noop "ok",
          ActionResult.mkSuccess ActionType.Noop "ok",
          ActionResult.mkFailure ActionType.Noop
            "Action limit (2) exceeded"], 0, 0⟩,
        ((ScriptStorage.mk [("q", quotaScript)]).set_running "q").update_result
          "q" false "1 actions failed" 0,
        ((ScriptRateLimiter.new 60).check "q" 0).2⟩ :=
  execute_action_quota quotaEnv ⟨[("q", quotaScript)]⟩
    (ScriptRateLimiter.new 60) "q" quotaScript 0 0 (by decide) rfl rfl rfl
    rfl rfl (fun _ => rfl) (fun _ => rfl)

/-! ## Claim C1 -/

/-- Actor reply oracle in which every GPIO write succeeds. -/
def okWritePin : Nat → Bool → Except String Unit := fun _ _ => Except.ok ()

/-- A set_gpio action on pin 7 with value true. -/
def c1Action : Action :=
  { baseAction ActionType.SetGpio "7" with
    value := some (JsonValue.bool true) }

/-- Claim C1 evaluated at the failing input: the engine dispatch of
set_gpio (action_set_gpio) takes no conflict detector and no pending
write state, so when two scripts request the same write value to the
same pin within one tick, each dispatch reaches the actor and the
actor receives two writes with a successful action result each, while
the ConflictDetector algorithm of conflict.rs, which the engine never
invokes, classifies the second request as Duplicate. -/
theorem gpio_write_bypasses_conflict_detector :
    (action_set_gpio true okWritePin c1Action).2
        ++ (action_set_gpio true okWritePin c1Action).2 =
      [HwCall.gpioWritePin 7 true, HwCall.gpioWritePin 7 true] ∧
    ((ConflictDetector.new.check_gpio_write "A" 7 true).2.check_gpio_write
        "B" 7 true).1 = ConflictResult.Duplicate ∧
    (action_set_gpio true okWritePin c1Action).1.success = true := by
  refine ⟨rfl, ?_, rfl⟩
  rfl

end Aqua
